import Mathlib

/-!
Shallow embedding of the Python sources of the repository
`Python-N5-2025` (two pygame arcade games and several beginner console
scripts), together with theorems settling the specification claims.

Conventions:
* Python floats in the flappy-bird game only undergo rational arithmetic
  (`+`, `-`, `*`, comparisons), so that game is embedded over `ℚ` and is
  fully executable.
* The 3-D racing game uses `math.sqrt`, `math.sin`, `math.cos`,
  `math.atan2`; it is embedded over `ℝ` with Mathlib's real functions.
* The `random.randint` call of the flappy game is modelled by passing the
  drawn value as an explicit argument to the step function.
* Reading keyboard state is modelled by a record of booleans, one per key
  the source inspects.
-/

namespace N5

/-! ## `AI Projects/flappybird.py` -/

/-- Screen width constant `SCREEN_WIDTH = 800` of the flappy game. -/
def FB.SCREEN_WIDTH : ℚ := 800

/-- Screen height constant `SCREEN_HEIGHT = 600` of the flappy game. -/
def FB.SCREEN_HEIGHT : ℚ := 600

/-- Gravity constant `GRAVITY = 0.5`. -/
def FB.GRAVITY : ℚ := 0.5

/-- Flap strength constant `FLAP_STRENGTH = -12`. -/
def FB.FLAP_STRENGTH : ℚ := -12

/-- Player sprite size constant `PLAYER_SIZE = 60`. -/
def FB.PLAYER_SIZE : ℚ := 60

/-- A pipe dictionary `{"x": …, "top_height": …, "gap": …, "passed": …}`
as created by `Game.spawn_pipe`. -/
structure Pipe where
  x : ℚ
  top_height : ℚ
  gap : ℚ
  passed : Bool
deriving DecidableEq, Repr

/-- The mutable fields of the flappy-bird `Game` object that the update
logic touches (display/clock/image fields are out of scope). -/
structure FlappyGame where
  player_x : ℚ
  player_y : ℚ
  player_velocity : ℚ
  pipes : List Pipe
  score : ℕ
  game_over : Bool
  pipes_passed : ℕ
  base_speed : ℚ
  current_speed : ℚ
  base_gap : ℚ
  current_gap : ℚ
deriving DecidableEq, Repr

/-- `Game.spawn_pipe`, with the value drawn by
`random.randint(80, SCREEN_HEIGHT - self.current_gap - 80)` passed in as
`randHeight`. -/
def FlappyGame.spawn_pipe (g : FlappyGame) (randHeight : ℚ) : FlappyGame :=
  let current_speed := g.base_speed + g.pipes_passed * (0.5 : ℚ)
  let current_gap := max 100 (g.base_gap - g.pipes_passed * 5)
  { g with
    current_speed := current_speed
    current_gap := current_gap
    pipes := g.pipes ++ [⟨FB.SCREEN_WIDTH, randHeight, current_gap, false⟩] }

/-- `Game.reset_game`, with the height drawn for the first pipe passed in. -/
def FlappyGame.reset_game (g : FlappyGame) (randHeight : ℚ) : FlappyGame :=
  (FlappyGame.spawn_pipe
    { g with
      player_x := 100
      player_y := FB.SCREEN_HEIGHT / 2
      player_velocity := 0
      pipes := []
      score := 0
      game_over := false
      pipes_passed := 0
      base_speed := 4
      current_speed := 4
      base_gap := 200
      current_gap := 200 } randHeight)

/-- The per-pipe collision condition of `Game.update` (lines 143–149):

    if (self.player_x < pipe["x"] + 50 and
        self.player_x + PLAYER_SIZE > pipe["x"]):
        if (self.player_y < pipe["top_height"] or
            self.player_y + PLAYER_SIZE > pipe["top_height"] + pipe["gap"]):
            self.game_over = True
-/
def pipe_collision (player_x player_y : ℚ) (p : Pipe) : Bool :=
  (decide (player_x < p.x + 50) && decide (player_x + FB.PLAYER_SIZE > p.x)) &&
    (decide (player_y < p.top_height) ||
      decide (player_y + FB.PLAYER_SIZE > p.top_height + p.gap))

/-- One pipe step of the movement/pass loop of `Game.update`: the pipe
moves left by `current_speed`; if it was not yet passed and its right edge
`x + 50` is now left of the player it is marked passed. The second
component records whether it was newly passed this frame. -/
def pipe_step (current_speed player_x : ℚ) (p : Pipe) : Pipe × Bool :=
  let x := p.x - current_speed
  if !p.passed && decide (x + 50 < player_x) then
    ({ p with x := x, passed := true }, true)
  else
    ({ p with x := x }, false)

/-- `Game.update`, with the pipe height that `spawn_pipe` would draw
passed in as `randHeight`. -/
def FlappyGame.update (g : FlappyGame) (randHeight : ℚ) : FlappyGame :=
  if g.game_over then g
  else
    -- Apply gravity
    let g := { g with player_velocity := g.player_velocity + FB.GRAVITY }
    let g := { g with player_y := g.player_y + g.player_velocity }
    -- Check boundaries
    let g :=
      if g.player_y < 0 ∨ g.player_y + FB.PLAYER_SIZE > FB.SCREEN_HEIGHT then
        { g with game_over := true }
      else g
    -- Update pipes: move each pipe and count the newly passed ones
    let stepped := g.pipes.map (pipe_step g.current_speed g.player_x)
    let newly_passed := (stepped.filter Prod.snd).length
    let g :=
      { g with
        pipes := stepped.map Prod.fst
        score := g.score + newly_passed
        pipes_passed := g.pipes_passed + newly_passed }
    -- Remove off-screen pipes
    let g := { g with pipes := g.pipes.filter (fun p => decide (p.x > -100)) }
    -- Spawn new pipe when needed
    let need_spawn : Bool :=
      g.pipes.length == 0 ||
        (match g.pipes.getLast? with
          | none => false
          | some p => decide (p.x < FB.SCREEN_WIDTH - 200))
    let g := if need_spawn then g.spawn_pipe randHeight else g
    -- Check collision with pipes
    if g.pipes.any (pipe_collision g.player_x g.player_y) then
      { g with game_over := true }
    else g

/-! ## `N5 Programs (Python and Web/CSS)/2024 Practice Assignment/Question 1d`

The training-session length validator:

    training_session = int(input(...))
    while training_session < 10 or training_session > 30:
        print("Error. A training session must be between 10 and 30")
        training_session = int(input(...))

The sequence of integers the user types is modelled by a list; the result
is the accepted value paired with the number of error messages printed, or
`none` if the input list is exhausted while every entry was rejected. -/

/-- The validation loop: consume entered integers until one lies in
`[10, 30]`; every rejected entry prints one error message and reprompts. -/
def validate_training_session : List ℤ → Option (ℤ × ℕ)
  | [] => none
  | t :: rest =>
    if t < 10 ∨ t > 30 then
      (validate_training_session rest).map (fun p => (p.1, p.2 + 1))
    else
      some (t, 0)

/-! ## `Python Challanges/Mystery Mansion Game.py`

The command-dispatch loop applies call syntax to the lists:

    if move == commands(0): ...
    elif move == commands(1): ...

Python evaluates `commands(0)` before the comparison; calling a `list`
raises `TypeError: 'list' object is not callable`.  The dynamic semantics
needed for that loop body are embedded below. -/

/-- The Python runtime values occurring in the mansion script's dispatch
loop: strings, lists of strings, and callables (none of the involved
names is bound to a callable, but the value domain has them so that the
call rule is not vacuous). -/
inductive PyVal where
  | str (s : String)
  | strList (xs : List String)
  | builtin (f : ℕ → PyVal)

/-- Errors raised by the embedded fragment. -/
inductive PyError where
  | typeError
deriving DecidableEq, Repr

/-- Call a value with one integer argument.  Only a callable may be
called; calling a `str` or a `list` raises `TypeError`. -/
def PyVal.call : PyVal → ℕ → Except PyError PyVal
  | .builtin f, n => .ok (f n)
  | .str _, _ => .error .typeError
  | .strList _, _ => .error .typeError

/-- Python `==` between the values of the fragment (cross-type equality
is `False`; callables compare by nothing we need, so `false`). -/
def PyVal.eq : PyVal → PyVal → Bool
  | .str a, .str b => a == b
  | .strList a, .strList b => a == b
  | _, _ => false

/-- Python `+` on the fragment's values: string concatenation; anything
else raises `TypeError`. -/
def PyVal.add : PyVal → PyVal → Except PyError PyVal
  | .str a, .str b => .ok (.str (a ++ b))
  | _, _ => .error .typeError

/-- `rooms = ["Enterence Hall", "Libary", "Kitchen", "Garden"]`. -/
def mansion_rooms : PyVal :=
  .strList ["Enterence Hall", "Libary", "Kitchen", "Garden"]

/-- `descriptions = [...]`. -/
def mansion_descriptions : PyVal :=
  .strList ["A grand foyer with a crystal chandelier",
    "Dusty bookshelves stretch from floor to ceiling",
    "Copper pots hang above an old stone hearth",
    "Overgrown vines twist around marble statues"]

/-- `commands = ["N", "S", "E", "W", "Quit", "Help"]`. -/
def mansion_commands : PyVal :=
  .strList ["N", "S", "E", "W", "Quit", "Help"]

/-- One branch `elif move == commands(i): print("Welcome to the", rooms(i) + descriptions(i))`:
evaluate the called condition operand, compare, and on a match evaluate
the room/description calls and emit the print line. -/
def mansion_room_branch (move : String) (i : ℕ)
    (otherwise : Except PyError (List String)) : Except PyError (List String) := do
  let c ← mansion_commands.call i
  if (PyVal.str move).eq c then
    let r ← mansion_rooms.call i
    let d ← mansion_descriptions.call i
    let rd ← r.add d
    match rd with
    | .str s => pure ["Welcome to the " ++ s]
    | _ => pure []
  else
    otherwise

/-- The body of the mansion game's `while True` dispatch loop for one
entered command `move`: the `if`/`elif` chain of lines 47–60, returning
the lines printed during the iteration (the `Quit` branch, which calls
`quit()`, is modelled as printing nothing). -/
def mansion_loop_body (move : String) : Except PyError (List String) :=
  mansion_room_branch move 0 <|
  mansion_room_branch move 1 <|
  mansion_room_branch move 2 <|
  mansion_room_branch move 3 <| do
    let c4 ← mansion_commands.call 4
    if (PyVal.str move).eq c4 then
      pure []
    else do
      let c5 ← mansion_commands.call 5
      if (PyVal.str move).eq c5 then
        pure ["Please enter either 1 (North), 2 (South), 3 (East), 4 (West) to move through the masion. Only type the letters not the names."]
      else
        pure ["Not a valid move please try again, enter Help for the commands to the game"]

/-! ## `Python Tasks/Traversing 1D array Task 2.py`

The indentation structure of the file.  Python's tokenizer keeps a stack
of indentation levels; a line indented deeper than the current level is
only legal when the previous logical line opened a block (ended with a
colon), and a dedent must return to a level already on the stack.  The
file's validation `if`/`elif` block is indented one level deeper than the
preceding `food.append(...)` statement, which opens no block. -/

/-- A logical source line: its indentation column and whether it is a
block header (ends with a colon, opening a suite). -/
structure PyLine where
  indent : ℕ
  opens_block : Bool
deriving DecidableEq, Repr

/-- Pop indentation levels until the top equals `i`; `none` when `i`
matches no enclosing level (an inconsistent dedent). -/
def dedent_to (i : ℕ) : List ℕ → Option (List ℕ)
  | [] => none
  | top :: rest => if top = i then some (top :: rest) else dedent_to i rest

/-- CPython's tokenizer-level indentation check: `stack` holds the open
indentation levels (outermost last), `afterHeader` records whether the
previous logical line opened a block.  Returns `false` exactly when the
line sequence is rejected with an `IndentationError`. -/
def indent_ok : List ℕ → Bool → List PyLine → Bool
  | _, _, [] => true
  | stack, afterHeader, l :: rest =>
    let top := stack.headD 0
    if afterHeader then
      -- a block was opened: the next line must be indented strictly deeper
      if l.indent > top then indent_ok (l.indent :: stack) l.opens_block rest
      else false
    else if l.indent = top then
      indent_ok stack l.opens_block rest
    else if l.indent > top then
      false  -- unexpected indent: no block was opened
    else
      match dedent_to l.indent stack with
      | some stack => indent_ok stack l.opens_block rest
      | none => false

/-- The logical lines of `Traversing 1D array Task 2.py` (comments and
blank lines are not logical lines): indentation column and whether the
line ends with a colon. -/
def traversal_task_lines : List PyLine :=
  [⟨0, false⟩,   -- food = []
   ⟨0, false⟩,   -- total = 0
   ⟨0, true⟩,    -- for index in range(5):
   ⟨4, false⟩,   -- food.append(int(input(...)))
   ⟨8, true⟩,    -- if food[index] > 0:
   ⟨12, false⟩,  -- print("Must be between 0g and 300g")
   ⟨8, true⟩,    -- elif food[index] < 300:
   ⟨12, false⟩,  -- print("Must be between 0g and 300g")
   ⟨4, false⟩,   -- total = (total+food[index])
   ⟨0, false⟩]   -- print(total)

/-- The indentation check of the whole file, starting from the
tokenizer's initial stack. -/
def file_indent_ok (ls : List PyLine) : Bool := indent_ok [0] false ls

end N5

namespace N5

/-! ## `AI Projects/racing game.py`

The racing game is embedded over `ℝ` (`math.sqrt`/`math.sin`/`math.cos`/
`math.atan2` become Mathlib's real functions).  Comparisons on reals use
the classical order instances, so these definitions are noncomputable. -/

/-- Screen width constant `SCREEN_WIDTH = 1400` of the racing game. -/
def RG.SCREEN_WIDTH : ℝ := 1400

/-- Screen height constant `SCREEN_HEIGHT = 900` of the racing game. -/
def RG.SCREEN_HEIGHT : ℝ := 900

/-- `math.radians`: degrees to radians. -/
noncomputable def math_radians (d : ℝ) : ℝ := d * (Real.pi / 180)

/-- `math.degrees`: radians to degrees. -/
noncomputable def math_degrees (r : ℝ) : ℝ := r * (180 / Real.pi)

/-- `math.atan2(y, x)`, the argument of the point `(x, y)` in `(-π, π]`. -/
noncomputable def math_atan2 (y x : ℝ) : ℝ := Complex.arg ⟨x, y⟩

/-- Python's float `%` with positive modulus: `a % b = a - b * ⌊a / b⌋`,
the representative of `a` in `[0, b)` for `b > 0`. -/
noncomputable def pymod (a b : ℝ) : ℝ := a - b * ⌊a / b⌋

/-- The `Vector3` dataclass. -/
structure Vector3 where
  x : ℝ
  y : ℝ
  z : ℝ

/-- `Vector3.distance_to`. -/
noncomputable def Vector3.distance_to (v other : Vector3) : ℝ :=
  let dx := other.x - v.x
  let dy := other.y - v.y
  let dz := other.z - v.z
  Real.sqrt (dx * dx + dy * dy + dz * dz)

/-- `Vector3.length`. -/
noncomputable def Vector3.length (v : Vector3) : ℝ :=
  Real.sqrt (v.x * v.x + v.y * v.y + v.z * v.z)

/-- The `CarClass` enum. -/
inductive CarClass where
  | ECONOMY
  | SPORTS
  | SUPERCAR
  | MUSCLE
deriving DecidableEq, Repr

/-- The `"max_speed"` entry of each `CarClass` value. -/
def CarClass.max_speed : CarClass → ℝ
  | .ECONOMY => 200
  | .SPORTS => 240
  | .SUPERCAR => 300
  | .MUSCLE => 260

/-- The `"acceleration"` entry of each `CarClass` value. -/
def CarClass.acceleration : CarClass → ℝ
  | .ECONOMY => 7
  | .SPORTS => 12
  | .SUPERCAR => 16
  | .MUSCLE => 14

/-- The `"handling"` entry of each `CarClass` value. -/
noncomputable def CarClass.handling : CarClass → ℝ
  | .ECONOMY => 0.95
  | .SPORTS => 0.88
  | .SUPERCAR => 0.80
  | .MUSCLE => 0.75

/-- The mutable state of a `Car3D` object.  The per-class constants that
`__init__` copies out of `car_class.value` are exposed as the derived
accessors `Car3D.max_speed`/`Car3D.acceleration` below (nothing ever
mutates them). -/
structure Car3D where
  pos : Vector3
  velocity : Vector3
  angle_yaw : ℝ
  car_class : CarClass
  is_player : Bool
  speed : ℝ
  lap_count : ℕ
  last_checkpoint : ℕ
  finished : Bool
  distance_traveled : ℝ
  is_reversing : Bool

/-- `Car3D.__init__(x, y, z, car_class, is_player)`. -/
def Car3D.init (x y z : ℝ) (car_class : CarClass) (is_player : Bool) : Car3D :=
  { pos := ⟨x, y, z⟩
    velocity := ⟨0, 0, 0⟩
    angle_yaw := 0
    car_class := car_class
    is_player := is_player
    speed := 0
    lap_count := 0
    last_checkpoint := 0
    finished := false
    distance_traveled := 0
    is_reversing := false }

/-- `self.max_speed = stats["max_speed"]`. -/
def Car3D.max_speed (c : Car3D) : ℝ := c.car_class.max_speed

/-- `self.acceleration = stats["acceleration"]`. -/
def Car3D.acceleration (c : Car3D) : ℝ := c.car_class.acceleration

/-- The pressed-state of the keys `Car3D.update_player_input` inspects
(`pygame.key.get_pressed()` restricted to those keys). -/
structure Keys where
  k_w : Bool
  k_up : Bool
  k_s : Bool
  k_down : Bool
  k_a : Bool
  k_left : Bool
  k_d : Bool
  k_right : Bool
  k_lshift : Bool
  k_rshift : Bool
deriving DecidableEq, Repr

/-- The turn amount of the steering branches of
`Car3D.update_player_input`: `5.0 * (self.speed / max(self.max_speed, 1))`. -/
noncomputable def Car3D.turn_amount (c : Car3D) : ℝ :=
  5.0 * (c.speed / max c.max_speed 1)

/-- `Car3D.update_player_input(keys, dt)` (the source takes `dt` but does
not use it). -/
noncomputable def Car3D.update_player_input (c : Car3D) (keys : Keys) (_dt : ℝ) : Car3D :=
  let forward := Real.cos (math_radians c.angle_yaw)
  let right := Real.sin (math_radians c.angle_yaw)
  let c := { c with is_reversing := keys.k_lshift || keys.k_rshift }
  -- Acceleration
  let c :=
    if keys.k_w || keys.k_up then
      { c with velocity :=
          { c.velocity with
            x := c.velocity.x + forward * c.acceleration * 50
            z := c.velocity.z + right * c.acceleration * 50 } }
    else c
  -- Braking / Reverse
  let c :=
    if keys.k_s || keys.k_down then
      if c.is_reversing then
        { c with velocity :=
            { c.velocity with
              x := c.velocity.x - forward * c.acceleration * 30
              z := c.velocity.z - right * c.acceleration * 30 } }
      else
        { c with velocity :=
            { c.velocity with
              x := c.velocity.x * 0.80
              z := c.velocity.z * 0.80 } }
    else c
  -- Steering
  let c :=
    if keys.k_a || keys.k_left then
      { c with angle_yaw := c.angle_yaw - c.turn_amount }
    else c
  let c :=
    if keys.k_d || keys.k_right then
      { c with angle_yaw := c.angle_yaw + c.turn_amount }
    else c
  let c := { c with angle_yaw := pymod c.angle_yaw 360 }
  -- Max speed cap
  if c.speed > c.max_speed then
    let ratio := c.max_speed / max c.speed 0.1
    { c with velocity :=
        { c.velocity with
          x := c.velocity.x * ratio
          z := c.velocity.z * ratio } }
  else c

/-- The loop `while angle_diff > 180: angle_diff -= 360` of
`Car3D.update_ai` in closed form: subtract `360` the minimal number of
times needed to land at or below `180`. -/
noncomputable def while_gt_180 (a : ℝ) : ℝ := a - 360 * max 0 ⌈(a - 180) / 360⌉

/-- The loop `while angle_diff < -180: angle_diff += 360` of
`Car3D.update_ai` in closed form: add `360` the minimal number of times
needed to land at or above `-180`. -/
noncomputable def while_lt_neg180 (a : ℝ) : ℝ := a + 360 * max 0 ⌈(-180 - a) / 360⌉

/-- The steering part of `Car3D.update_ai`: the yaw after
`self.angle_yaw += angle_diff * 0.08` and `self.angle_yaw %= 360`,
where `angle_diff` is the `while`-normalised difference to the angle of
the pursued track point (`current_checkpoint = min(last_checkpoint + 8,
len(track_points) - 1)`). -/
noncomputable def Car3D.ai_steered_yaw (c : Car3D) (track_points : List Vector3) : ℝ :=
  let current_checkpoint := min (c.last_checkpoint + 8) (track_points.length - 1)
  let target := track_points.getD current_checkpoint ⟨0, 0, 0⟩
  let dx := target.x - c.pos.x
  let dz := target.z - c.pos.z
  let target_angle := math_degrees (math_atan2 dz dx)
  let angle_diff := while_lt_neg180 (while_gt_180 (target_angle - c.angle_yaw))
  pymod (c.angle_yaw + angle_diff * 0.08) 360

/-- `Car3D.update_ai(track_points, dt)` (the source takes `dt` but does
not use it). -/
noncomputable def Car3D.update_ai (c : Car3D) (track_points : List Vector3) (_dt : ℝ) : Car3D :=
  if track_points.length < 2 then c
  else
    -- Smooth steering
    let c := { c with angle_yaw := c.ai_steered_yaw track_points }
    -- Accelerate
    let forward := Real.cos (math_radians c.angle_yaw)
    let right := Real.sin (math_radians c.angle_yaw)
    let c :=
      if c.speed < c.max_speed * 0.85 then
        { c with velocity :=
            { c.velocity with
              x := c.velocity.x + forward * c.acceleration * 30
              z := c.velocity.z + right * c.acceleration * 30 } }
      else c
    if c.speed > c.max_speed then
      let ratio := c.max_speed / max c.speed 0.1
      { c with velocity :=
          { c.velocity with
            x := c.velocity.x * ratio
            z := c.velocity.z * ratio } }
    else c

/-- The scan of `Car3D.update_track_height`: the `y` of the nearest track
point in the `x`/`z` plane.  The initial `closest_dist = float('inf')`
makes the first point the initial best, so the fold starts from it. -/
noncomputable def closest_height_go (pos : Vector3) : List Vector3 → ℝ → ℝ → ℝ
  | [], _, best_height => best_height
  | p :: rest, best_dist, best_height =>
    let dx := p.x - pos.x
    let dz := p.z - pos.z
    let dist := Real.sqrt (dx * dx + dz * dz)
    if dist < best_dist then closest_height_go pos rest dist p.y
    else closest_height_go pos rest best_dist best_height

/-- `Car3D.update_track_height(track_points)`. -/
noncomputable def Car3D.update_track_height (c : Car3D) (track_points : List Vector3) : Car3D :=
  match track_points with
  | [] => c
  | p :: rest =>
    let dx := p.x - c.pos.x
    let dz := p.z - c.pos.z
    let d0 := Real.sqrt (dx * dx + dz * dz)
    let closest_height := closest_height_go c.pos rest d0 p.y
    { c with pos := { c.pos with y := c.pos.y + (closest_height - c.pos.y) * 0.2 } }

/-- The scan of `Car3D.check_checkpoint`: index of the first track point
at minimal 3-D distance.  `i` is the index of the head of the remaining
list; the initial `closest_dist = float('inf')` makes the first point the
initial best. -/
noncomputable def closest_idx_go (pos : Vector3) : List Vector3 → ℕ → ℝ → ℕ → ℕ
  | [], _, _, best_idx => best_idx
  | p :: rest, i, best_dist, best_idx =>
    let dist := pos.distance_to p
    if dist < best_dist then closest_idx_go pos rest (i + 1) dist i
    else closest_idx_go pos rest (i + 1) best_dist best_idx

/-- The index of the track point closest to `pos` (first index attaining
the minimum), as computed by the loop of `Car3D.check_checkpoint`. -/
noncomputable def closest_idx (pos : Vector3) : List Vector3 → ℕ
  | [] => 0
  | p :: rest => closest_idx_go pos rest 1 (pos.distance_to p) 0

/-- `Car3D.check_checkpoint(track_points)`. -/
noncomputable def Car3D.check_checkpoint (c : Car3D) (track_points : List Vector3) : Car3D :=
  if track_points.length = 0 then c
  else
    let ci := closest_idx c.pos track_points
    if ci > c.last_checkpoint then
      { c with last_checkpoint := ci }
    else if ci < c.last_checkpoint ∧ ci < 20 then
      let c := { c with lap_count := c.lap_count + 1 }
      if c.lap_count ≥ 3 then { c with finished := true } else c
    else c

/-- The input dispatch of `Car3D.update`: `if self.is_player and keys:
self.update_player_input(keys, dt) else: self.update_ai(track_points, dt)`
(`keys = none` models the `keys=None` default used for the AI cars). -/
noncomputable def Car3D.input_stage (c : Car3D) (track_points : List Vector3)
    (keys : Option Keys) (dt : ℝ) : Car3D :=
  match keys with
  | some k => if c.is_player then c.update_player_input k dt else c.update_ai track_points dt
  | none => c.update_ai track_points dt

/-- `Car3D.update(track_points, keys, dt)`. -/
noncomputable def Car3D.update (c : Car3D) (track_points : List Vector3)
    (keys : Option Keys) (dt : ℝ) : Car3D :=
  if c.finished then c
  else
    let c := c.input_stage track_points keys dt
    -- Apply friction
    let c := { c with velocity :=
        { c.velocity with x := c.velocity.x * 0.97, z := c.velocity.z * 0.97 } }
    -- Calculate speed
    let c := { c with speed := Real.sqrt (c.velocity.x ^ 2 + c.velocity.z ^ 2) }
    -- Update position
    let c := { c with pos :=
        { c.pos with x := c.pos.x + c.velocity.x * dt, z := c.pos.z + c.velocity.z * dt } }
    -- Keep on track (snap to nearest track height)
    let c := c.update_track_height track_points
    -- Track progress
    let c := c.check_checkpoint track_points
    { c with distance_traveled := c.distance_traveled + c.speed * dt }

end N5

namespace N5

/-! ### Track generation (`Track3D`) -/

/-- The `i`-th point appended by the first loop of
`Track3D.generate_track` (`segments = 200`, `center_x = center_z = 0`,
`base_radius_x = 400`, `base_radius_z = 300`). -/
noncomputable def point_at (i : ℕ) : Vector3 :=
  let progress : ℝ := (i : ℝ) / 200
  let angle := progress * 4 * Real.pi
  let x := 0 + 400 * Real.cos angle * (1.0 + 0.3 * Real.sin (angle * 2))
  let z := 0 + 300 * Real.sin angle * (1.0 + 0.2 * Real.cos (angle * 3))
  let y := 50 + 40 * Real.sin (angle * 2) + 25 * Real.cos (angle * 3) + 15 * Real.sin (angle * 5)
  ⟨x, y, z⟩

/-- The point list built by the first loop of `Track3D.generate_track`. -/
noncomputable def gen_points : List Vector3 := (List.range 200).map point_at

open Classical in
/-- Python's `list.index`: position of the first element equal to `p`
(the source only calls it on elements of the list, so the out-of-list
`ValueError` case never arises; it is mapped to the list's length). -/
noncomputable def first_index (p : Vector3) : List Vector3 → ℕ
  | [] => 0
  | q :: rest => if q = p then 0 else 1 + first_index p rest

/-- The barrier offsets computed for one `point` by the second loop of
`Track3D.generate_track` (`barrier_offset = 100`): `none` when
`dist > 0` fails, in which case the source appends nothing for this
point. -/
noncomputable def barrier_pair (pts : List Vector3) (point : Vector3) :
    Option (Vector3 × Vector3) :=
  let idx := first_index point pts
  let next_point := pts.getD ((idx + 1) % pts.length) ⟨0, 0, 0⟩
  let dx := next_point.x - point.x
  let dz := next_point.z - point.z
  let dist := Real.sqrt (dx * dx + dz * dz)
  if dist > 0 then
    let perp_x := -dz / dist
    let perp_z := dx / dist
    some (⟨point.x + perp_x * 100, point.y, point.z + perp_z * 100⟩,
      ⟨point.x - perp_x * 100, point.y, point.z - perp_z * 100⟩)
  else none

/-- The fields of a `Track3D` object after `__init__`. -/
structure Track3D where
  points : List Vector3
  left_barriers : List Vector3
  right_barriers : List Vector3

/-- `Track3D.generate_track` (invoked from `Track3D.__init__` on empty
lists; the result of a complete invocation). -/
noncomputable def Track3D.generate_track : Track3D :=
  let points := gen_points
  { points := points
    left_barriers := points.filterMap (fun p => (barrier_pair points p).map Prod.fst)
    right_barriers := points.filterMap (fun p => (barrier_pair points p).map Prod.snd) }

/-! ### Perspective projection (`Game3D.project_3d_to_2d`) -/

/-- The camera-space `rotated_x` of `Game3D.project_3d_to_2d`. -/
noncomputable def rotated_x (x z cam_x cam_z cam_angle : ℝ) : ℝ :=
  (x - cam_x) * Real.cos (math_radians cam_angle) -
    (z - cam_z) * Real.sin (math_radians cam_angle)

/-- The camera-space depth `rotated_z` of `Game3D.project_3d_to_2d`. -/
noncomputable def rotated_z (x z cam_x cam_z cam_angle : ℝ) : ℝ :=
  (x - cam_x) * Real.sin (math_radians cam_angle) +
    (z - cam_z) * Real.cos (math_radians cam_angle)

/-- `focal_length = (SCREEN_WIDTH / 2) / math.tan(math.radians(fov / 2))`
with `fov = 60`. -/
noncomputable def focal_length : ℝ :=
  (RG.SCREEN_WIDTH / 2) / Real.tan (math_radians (60 / 2))

/-- The `screen_x` of `Game3D.project_3d_to_2d`. -/
noncomputable def screen_x (x z cam_x cam_z cam_angle : ℝ) : ℝ :=
  RG.SCREEN_WIDTH / 2 +
    (rotated_x x z cam_x cam_z cam_angle / rotated_z x z cam_x cam_z cam_angle) * focal_length

/-- The `screen_y` of `Game3D.project_3d_to_2d`. -/
noncomputable def screen_y (y z x cam_x cam_y cam_z cam_angle : ℝ) : ℝ :=
  RG.SCREEN_HEIGHT / 2 - ((y - cam_y) / rotated_z x z cam_x cam_z cam_angle) * focal_length

/-- `Game3D.project_3d_to_2d(x, y, z, cam_x, cam_y, cam_z, cam_angle)`.
Python's `int()` truncates toward zero; both screen coordinates are
nonnegative in the branch where it is applied, where truncation and floor
agree. -/
noncomputable def Game3D.project_3d_to_2d (x y z cam_x cam_y cam_z cam_angle : ℝ) :
    Option (ℤ × ℤ) :=
  -- Only render if in front of camera
  if rotated_z x z cam_x cam_z cam_angle ≤ 0.5 then none
  else
    let sx := screen_x x z cam_x cam_z cam_angle
    let sy := screen_y y z x cam_x cam_y cam_z cam_angle
    if 0 ≤ sx ∧ sx < RG.SCREEN_WIDTH ∧ 0 ≤ sy ∧ sy < RG.SCREEN_HEIGHT then
      some (⌊sx⌋, ⌊sy⌋)
    else none

/-! ### Game-mode state machine (`Game3D`) -/

/-- The fields of the `Game3D` object driving the mode machine.  The
source keeps `all_cars = [self.player] + self.ai_cars`, aliasing the same
car objects; it is the derived list `Game3D.all_cars` here. -/
structure Game3D where
  running : Bool
  state : String
  track : Track3D
  player : Car3D
  ai_cars : List Car3D

/-- `all_cars = [self.player] + self.ai_cars`. -/
def Game3D.all_cars (g : Game3D) : List Car3D := g.player :: g.ai_cars

/-- `Game3D.setup_game`: recreate the player and the AI cars at their
spawn points (a full session reset). -/
noncomputable def Game3D.setup_game (g : Game3D) : Game3D :=
  if g.track.points.length > 0 then
    let start_point := g.track.points.getD 0 ⟨0, 0, 0⟩
    let player := Car3D.init start_point.x start_point.y start_point.z .SPORTS true
    let ai_spawn_indices : List ℕ := [10, 20, 30]
    let car_classes : List CarClass := [.SUPERCAR, .MUSCLE, .ECONOMY]
    let ai_cars := (List.range ai_spawn_indices.length).filterMap (fun idx =>
      let spawn_idx := ai_spawn_indices.getD idx 0
      if spawn_idx < g.track.points.length then
        let spawn_point := g.track.points.getD spawn_idx ⟨0, 0, 0⟩
        some (Car3D.init spawn_point.x spawn_point.y spawn_point.z
          (car_classes.getD idx .ECONOMY) false)
      else none)
    { g with player := player, ai_cars := ai_cars }
  else g

/-- The keys `Game3D.handle_events` inspects. -/
inductive PyKey where
  | space
  | escape
  | other
deriving DecidableEq, Repr

/-- The pygame events `Game3D.handle_events` inspects. -/
inductive PyEvent where
  | quit
  | keydown (key : PyKey)
deriving DecidableEq, Repr

/-- The handling of a single event in `Game3D.handle_events`. -/
noncomputable def Game3D.handle_event (g : Game3D) (e : PyEvent) : Game3D :=
  match e with
  | .quit => { g with running := false }
  | .keydown key =>
    if g.state = "menu" ∧ key = .space then
      Game3D.setup_game { g with state := "racing" }
    else if g.state = "finish" ∧ key = .space then
      { g with state := "menu" }
    else if key = .escape then
      { g with running := false }
    else g

/-- `Game3D.handle_events`, folding over the frame's event queue. -/
noncomputable def Game3D.handle_events (g : Game3D) (events : List PyEvent) : Game3D :=
  events.foldl Game3D.handle_event g

/-- `Game3D.update(dt)` (the per-frame state update; `keys` is the
keyboard state read by `pygame.key.get_pressed()`). -/
noncomputable def Game3D.update (g : Game3D) (keys : Keys) (dt : ℝ) : Game3D :=
  if g.state = "racing" then
    let g :=
      { g with
        player := g.player.update g.track.points (some keys) dt
        ai_cars := g.ai_cars.map (fun car : Car3D => car.update g.track.points none dt) }
    if g.player.finished then { g with state := "finish" } else g
  else g

end N5

namespace N5

/-! ## Concrete states used by witnesses and counterexamples -/

/-- Keyboard state with only `W` held. -/
def keys_w : Keys := ⟨true, false, false, false, false, false, false, false, false, false⟩

/-- Keyboard state with only `A` (steer left) held. -/
def keys_a : Keys := ⟨false, false, false, false, true, false, false, false, false, false⟩

/-- Keyboard state with no key held. -/
def keys_none : Keys := ⟨false, false, false, false, false, false, false, false, false, false⟩

/-- A freshly constructed player `SPORTS` car at the origin. -/
noncomputable def sports_car : Car3D := Car3D.init 0 0 0 .SPORTS true

/-- The `SPORTS` car moving along `x` at speed `120`. -/
noncomputable def sports_car_120 : Car3D :=
  { sports_car with velocity := ⟨120, 0, 0⟩, speed := 120 }

/-- The `SPORTS` car moving along `x` at speed `240`. -/
noncomputable def sports_car_240 : Car3D :=
  { sports_car with velocity := ⟨240, 0, 0⟩, speed := 240 }

/-- A 200-point track laid out along the `x` axis (an arbitrary concrete
argument for `check_checkpoint`, whose track parameter is unconstrained). -/
noncomputable def line_track : List Vector3 :=
  (List.range 200).map (fun i : ℕ => (⟨(i : ℝ), 0, 0⟩ : Vector3))

/-- A car standing on point `0` of `line_track` whose furthest reached
index is `21` — far below the final index `199`. -/
noncomputable def midway_car : Car3D :=
  { sports_car with last_checkpoint := 21 }

/-- A car standing on a one-point track with `last_checkpoint = 0`. -/
noncomputable def parked_car : Car3D := sports_car

/-- A `Game3D` on the finish screen whose player holds session state
(3 laps, finished flag). -/
noncomputable def finish_game : Game3D :=
  { running := true
    state := "finish"
    track := ⟨[], [], []⟩
    player := { Car3D.init 0 0 0 .SPORTS true with lap_count := 3, finished := true }
    ai_cars := [] }

/-- A `Game3D` on the menu screen. -/
noncomputable def menu_game : Game3D := { finish_game with state := "menu" }

/-- A `Game3D` mid-race whose player has already finished. -/
noncomputable def racing_game : Game3D := { finish_game with state := "racing" }

end N5

namespace N5

/-! ## Claim C4 — flappy-bird collision check -/

/-- C4: in the flappy game's collision check, for every pipe a player box
fully outside the pipe's horizontal span `[x, x+50]` never triggers the
game-over condition; one inside the horizontal span and fully inside the
vertical gap `[top_height, top_height+gap]` never triggers it; and one
inside the horizontal span extending outside the gap always triggers it. -/
theorem C4_collision_cases (p : Pipe) (player_x player_y : ℚ) :
    ((player_x + FB.PLAYER_SIZE ≤ p.x ∨ p.x + 50 ≤ player_x) →
      pipe_collision player_x player_y p = false) ∧
    ((player_x < p.x + 50 ∧ p.x < player_x + FB.PLAYER_SIZE) →
      (p.top_height ≤ player_y ∧ player_y + FB.PLAYER_SIZE ≤ p.top_height + p.gap) →
      pipe_collision player_x player_y p = false) ∧
    ((player_x < p.x + 50 ∧ p.x < player_x + FB.PLAYER_SIZE) →
      (player_y < p.top_height ∨ p.top_height + p.gap < player_y + FB.PLAYER_SIZE) →
      pipe_collision player_x player_y p = true) := by
  have hiff : pipe_collision player_x player_y p = true ↔
      ((player_x < p.x + 50 ∧ p.x < player_x + FB.PLAYER_SIZE) ∧
        (player_y < p.top_height ∨ p.top_height + p.gap < player_y + FB.PLAYER_SIZE)) := by
    simp [pipe_collision]
  refine ⟨fun h => ?_, fun h₁ h₂ => ?_, fun h₁ h₂ => ?_⟩
  · cases hb : pipe_collision player_x player_y p with
    | false => rfl
    | true =>
      exfalso
      rcases (hiff.mp hb).1 with ⟨hl, hr⟩
      rcases h with h | h
      · linarith
      · linarith
  · cases hb : pipe_collision player_x player_y p with
    | false => rfl
    | true =>
      exfalso
      rcases (hiff.mp hb).2 with h | h
      · linarith [h₂.1]
      · linarith [h₂.2]
  · exact hiff.mpr ⟨h₁, h₂⟩

/-- Witness for `C4_collision_cases` at the pipe
`{x := 400, top_height := 200, gap := 200}`. -/
theorem C4_collision_cases_witness :
    pipe_collision 100 300 ⟨400, 200, 200, false⟩ = false ∧
    pipe_collision 400 250 ⟨400, 200, 200, false⟩ = false ∧
    pipe_collision 400 100 ⟨400, 200, 200, false⟩ = true :=
  ⟨(C4_collision_cases ⟨400, 200, 200, false⟩ 100 300).1 (by norm_num [FB.PLAYER_SIZE]),
    (C4_collision_cases ⟨400, 200, 200, false⟩ 400 250).2.1
      (by norm_num [FB.PLAYER_SIZE]) (by norm_num [FB.PLAYER_SIZE]),
    (C4_collision_cases ⟨400, 200, 200, false⟩ 400 100).2.2
      (by norm_num [FB.PLAYER_SIZE]) (by norm_num [FB.PLAYER_SIZE])⟩

/-! ## Claim C8 — training-session length validator -/

/-- C8: the validation loop accepts only values in `[10, 30]` (whenever
it terminates, the accepted value is in range), and every out-of-range
entry produces exactly one more error message and a reprompt on the rest
of the input stream. -/
theorem C8_validator_range (inputs : List ℤ) (v : ℤ) (n : ℕ) :
    (validate_training_session inputs = some (v, n) → 10 ≤ v ∧ v ≤ 30) ∧
    (∀ t : ℤ, (t < 10 ∨ t > 30) →
      validate_training_session (t :: inputs) =
        (validate_training_session inputs).map (fun p => (p.1, p.2 + 1))) := by
  constructor
  · have key : ∀ (l : List ℤ) (r : ℤ × ℕ),
        validate_training_session l = some r → 10 ≤ r.1 ∧ r.1 ≤ 30 := by
      intro l
      induction l with
      | nil => intro r h; simp [validate_training_session] at h
      | cons t rest ih =>
        intro r h
        rw [validate_training_session] at h
        split_ifs at h with ht
        · rcases Option.map_eq_some'.mp h with ⟨r', hr', hmap⟩
          have hr := ih r' hr'
          rw [← hmap]
          exact hr
        · push_neg at ht
          injection h with h'
          rw [← h']
          exact ht
    exact fun h => key inputs (v, n) h
  · intro t ht
    rw [validate_training_session, if_pos ht]

/-- Witness for `C8_validator_range`: the stream `5, 15` rejects `5` with
one error message and accepts `15`, which lies in `[10, 30]`. -/
theorem C8_validator_range_witness :
    (10 ≤ (15 : ℤ) ∧ (15 : ℤ) ≤ 30) ∧
    validate_training_session [5, 15] =
      (validate_training_session [15]).map (fun p => (p.1, p.2 + 1)) :=
  ⟨(C8_validator_range [5, 15] 15 1).1 (by decide),
    (C8_validator_range [15] 15 0).2 5 (by decide)⟩

/-! ## Claim C9 — defects in the student exercises -/

/-- C9: every iteration of the Mystery Mansion dispatch loop evaluates
`commands(0)` — a call on a list — so for every entered command the body
raises `TypeError` before printing anything; and the array-traversal
script's validation block is indented under a non-header line, so the
file is rejected by the tokenizer (its validation never executes). -/
theorem C9_exercise_defects :
    (∀ move : String, mansion_loop_body move = .error .typeError) ∧
    file_indent_ok traversal_task_lines = false :=
  ⟨fun _ => rfl, by decide⟩

end N5


namespace N5

/-! ## Structural lemmas about the car update pipeline -/

set_option maxHeartbeats 1000000 in
/-- `update_player_input` leaves `last_checkpoint` unchanged. -/
theorem update_player_input_last_checkpoint (c : Car3D) (k : Keys) (dt : ℝ) :
    (c.update_player_input k dt).last_checkpoint = c.last_checkpoint := by
  simp only [Car3D.update_player_input]
  split_ifs <;> rfl

set_option maxHeartbeats 1000000 in
/-- `update_player_input` leaves the recorded `speed` field unchanged. -/
theorem update_player_input_speed (c : Car3D) (k : Keys) (dt : ℝ) :
    (c.update_player_input k dt).speed = c.speed := by
  simp only [Car3D.update_player_input]
  split_ifs <;> rfl

set_option maxHeartbeats 1000000 in
/-- `update_player_input` leaves the car class unchanged. -/
theorem update_player_input_car_class (c : Car3D) (k : Keys) (dt : ℝ) :
    (c.update_player_input k dt).car_class = c.car_class := by
  simp only [Car3D.update_player_input]
  split_ifs <;> rfl

set_option maxHeartbeats 1000000 in
/-- `update_ai` leaves `last_checkpoint` unchanged. -/
theorem update_ai_last_checkpoint (c : Car3D) (tp : List Vector3) (dt : ℝ) :
    (c.update_ai tp dt).last_checkpoint = c.last_checkpoint := by
  simp only [Car3D.update_ai]
  split_ifs <;> rfl

set_option maxHeartbeats 1000000 in
/-- `update_ai` leaves the recorded `speed` field unchanged. -/
theorem update_ai_speed (c : Car3D) (tp : List Vector3) (dt : ℝ) :
    (c.update_ai tp dt).speed = c.speed := by
  simp only [Car3D.update_ai]
  split_ifs <;> rfl

set_option maxHeartbeats 1000000 in
/-- `update_ai` leaves the car class unchanged. -/
theorem update_ai_car_class (c : Car3D) (tp : List Vector3) (dt : ℝ) :
    (c.update_ai tp dt).car_class = c.car_class := by
  simp only [Car3D.update_ai]
  split_ifs <;> rfl

/-- The input stage leaves `last_checkpoint` unchanged. -/
theorem input_stage_last_checkpoint (c : Car3D) (tp : List Vector3)
    (keys : Option Keys) (dt : ℝ) :
    (c.input_stage tp keys dt).last_checkpoint = c.last_checkpoint := by
  cases keys with
  | none => exact update_ai_last_checkpoint c tp dt
  | some k =>
    simp only [Car3D.input_stage]
    split_ifs
    · exact update_player_input_last_checkpoint c k dt
    · exact update_ai_last_checkpoint c tp dt

/-- The input stage leaves the recorded `speed` field unchanged. -/
theorem input_stage_speed (c : Car3D) (tp : List Vector3)
    (keys : Option Keys) (dt : ℝ) :
    (c.input_stage tp keys dt).speed = c.speed := by
  cases keys with
  | none => exact update_ai_speed c tp dt
  | some k =>
    simp only [Car3D.input_stage]
    split_ifs
    · exact update_player_input_speed c k dt
    · exact update_ai_speed c tp dt

/-- The input stage leaves the car class unchanged. -/
theorem input_stage_car_class (c : Car3D) (tp : List Vector3)
    (keys : Option Keys) (dt : ℝ) :
    (c.input_stage tp keys dt).car_class = c.car_class := by
  cases keys with
  | none => exact update_ai_car_class c tp dt
  | some k =>
    simp only [Car3D.input_stage]
    split_ifs
    · exact update_player_input_car_class c k dt
    · exact update_ai_car_class c tp dt

/-- `update_track_height` leaves `last_checkpoint` unchanged. -/
theorem update_track_height_last_checkpoint (c : Car3D) (tp : List Vector3) :
    (c.update_track_height tp).last_checkpoint = c.last_checkpoint := by
  cases tp <;> rfl

/-- `update_track_height` leaves the recorded `speed` field unchanged. -/
theorem update_track_height_speed (c : Car3D) (tp : List Vector3) :
    (c.update_track_height tp).speed = c.speed := by
  cases tp <;> rfl

/-- `check_checkpoint` leaves the recorded `speed` field unchanged. -/
theorem check_checkpoint_speed (c : Car3D) (tp : List Vector3) :
    (c.check_checkpoint tp).speed = c.speed := by
  simp only [Car3D.check_checkpoint]
  split_ifs <;> rfl

/-- `check_checkpoint` either leaves `last_checkpoint` unchanged or
raises it to the current closest-point index. -/
theorem check_checkpoint_last_checkpoint (c : Car3D) (tp : List Vector3) :
    (c.check_checkpoint tp).last_checkpoint = c.last_checkpoint ∨
      ((c.check_checkpoint tp).last_checkpoint = closest_idx c.pos tp ∧
        c.last_checkpoint < closest_idx c.pos tp) := by
  simp only [Car3D.check_checkpoint]
  split_ifs with h0 h1 h2 h3
  · exact Or.inl rfl
  · exact Or.inr ⟨rfl, h1⟩
  · exact Or.inl rfl
  · exact Or.inl rfl
  · exact Or.inl rfl

/-- Unfolding `Car3D.update` for an unfinished car. -/
theorem update_eq_of_not_finished (c : Car3D) (tp : List Vector3)
    (keys : Option Keys) (dt : ℝ) (hfin : c.finished = false) :
    c.update tp keys dt =
      (let c1 := c.input_stage tp keys dt
       let c2 : Car3D := { c1 with velocity :=
         { c1.velocity with x := c1.velocity.x * 0.97, z := c1.velocity.z * 0.97 } }
       let c3 : Car3D := { c2 with speed := Real.sqrt (c2.velocity.x ^ 2 + c2.velocity.z ^ 2) }
       let c4 : Car3D := { c3 with pos :=
         { c3.pos with x := c3.pos.x + c3.velocity.x * dt, z := c3.pos.z + c3.velocity.z * dt } }
       let c5 := c4.update_track_height tp
       let c6 := c5.check_checkpoint tp
       { c6 with distance_traveled := c6.distance_traveled + c6.speed * dt }) := by
  rw [Car3D.update, if_neg (by rw [hfin]; exact Bool.false_ne_true)]

/-- If the car has finished, `update` is the identity. -/
theorem update_eq_of_finished (c : Car3D) (tp : List Vector3)
    (keys : Option Keys) (dt : ℝ) (hfin : c.finished = true) :
    c.update tp keys dt = c := by
  rw [Car3D.update, if_pos hfin]

/-- Through a whole `update` call, `last_checkpoint` never decreases. -/
theorem update_last_checkpoint_ge (c : Car3D) (tp : List Vector3)
    (keys : Option Keys) (dt : ℝ) :
    c.last_checkpoint ≤ (c.update tp keys dt).last_checkpoint := by
  cases hfin : c.finished with
  | true => rw [update_eq_of_finished c tp keys dt hfin]
  | false =>
    have hface : ∀ d : Car3D, d.last_checkpoint = c.last_checkpoint →
        c.last_checkpoint ≤ (d.check_checkpoint tp).last_checkpoint := by
      intro d hd
      rcases check_checkpoint_last_checkpoint d tp with h | ⟨h, hlt⟩
      · rw [h, hd]
      · rw [h]
        rw [hd] at hlt
        exact le_of_lt hlt
    rw [update_eq_of_not_finished c tp keys dt hfin]
    show c.last_checkpoint ≤ (Car3D.check_checkpoint _ tp).last_checkpoint
    refine hface _ ?_
    rw [update_track_height_last_checkpoint]
    exact input_stage_last_checkpoint c tp keys dt

end N5

namespace N5

/-! ## Claim C10 — `last_checkpoint` is monotone and never reset -/

/-- C10: across any single `check_checkpoint` call — hence across
successive calls — `last_checkpoint` never decreases; it is only ever
raised to the current closest-point index (not reset when a lap is
counted or the car finishes), and the same monotonicity holds through a
whole `update` call. -/
theorem C10_last_checkpoint_monotone (c : Car3D) (tp : List Vector3)
    (keys : Option Keys) (dt : ℝ) :
    c.last_checkpoint ≤ (c.check_checkpoint tp).last_checkpoint ∧
    ((c.check_checkpoint tp).last_checkpoint = c.last_checkpoint ∨
      (c.check_checkpoint tp).last_checkpoint = closest_idx c.pos tp) ∧
    c.last_checkpoint ≤ (c.update tp keys dt).last_checkpoint := by
  refine ⟨?_, ?_, update_last_checkpoint_ge c tp keys dt⟩
  · rcases check_checkpoint_last_checkpoint c tp with h | ⟨h, hlt⟩
    · exact h.ge
    · rw [h]
      exact le_of_lt hlt
  · rcases check_checkpoint_last_checkpoint c tp with h | ⟨h, _⟩
    · exact Or.inl h
    · exact Or.inr h

/-! ## Claim C3 — projection near-plane and screen-bounds behaviour -/

/-- C3: `project_3d_to_2d` yields no projection exactly when the rotated
depth is at or below the near-plane threshold `0.5` or the projected
screen coordinates fall outside the screen bounds, and it yields the
(truncated) integer screen coordinates exactly when the point is strictly
in front of the camera and lands on screen. -/
theorem C3_projection_cases (x y z cam_x cam_y cam_z cam_angle : ℝ) :
    (Game3D.project_3d_to_2d x y z cam_x cam_y cam_z cam_angle = none ↔
      (rotated_z x z cam_x cam_z cam_angle ≤ 0.5 ∨
        ¬(0 ≤ screen_x x z cam_x cam_z cam_angle ∧
          screen_x x z cam_x cam_z cam_angle < RG.SCREEN_WIDTH ∧
          0 ≤ screen_y y z x cam_x cam_y cam_z cam_angle ∧
          screen_y y z x cam_x cam_y cam_z cam_angle < RG.SCREEN_HEIGHT))) ∧
    (Game3D.project_3d_to_2d x y z cam_x cam_y cam_z cam_angle =
        some (⌊screen_x x z cam_x cam_z cam_angle⌋,
          ⌊screen_y y z x cam_x cam_y cam_z cam_angle⌋) ↔
      (0.5 < rotated_z x z cam_x cam_z cam_angle ∧
        0 ≤ screen_x x z cam_x cam_z cam_angle ∧
        screen_x x z cam_x cam_z cam_angle < RG.SCREEN_WIDTH ∧
        0 ≤ screen_y y z x cam_x cam_y cam_z cam_angle ∧
        screen_y y z x cam_x cam_y cam_z cam_angle < RG.SCREEN_HEIGHT)) := by
  by_cases h1 : rotated_z x z cam_x cam_z cam_angle ≤ 0.5
  · constructor
    · simp only [Game3D.project_3d_to_2d, if_pos h1]
      simp [h1]
    · simp only [Game3D.project_3d_to_2d, if_pos h1]
      constructor
      · intro h; cases h
      · rintro ⟨hlt, -⟩; exact absurd h1 (not_le.mpr hlt)
  · by_cases h2 : (0 ≤ screen_x x z cam_x cam_z cam_angle ∧
        screen_x x z cam_x cam_z cam_angle < RG.SCREEN_WIDTH ∧
        0 ≤ screen_y y z x cam_x cam_y cam_z cam_angle ∧
        screen_y y z x cam_x cam_y cam_z cam_angle < RG.SCREEN_HEIGHT)
    · constructor
      · simp only [Game3D.project_3d_to_2d, if_neg h1, if_pos h2]
        simp [h1, h2]
      · simp only [Game3D.project_3d_to_2d, if_neg h1, if_pos h2]
        simp [not_le.mp h1, h2]
    · constructor
      · simp only [Game3D.project_3d_to_2d, if_neg h1, if_neg h2]
        simp [h1, h2]
      · simp only [Game3D.project_3d_to_2d, if_neg h1, if_neg h2]
        constructor
        · intro h; cases h
        · rintro ⟨-, h⟩; exact absurd h h2

/-! ## Claim C6 — determinism of track generation -/

/-- C6: `Track3D.generate_track` depends on no randomness or external
state — any two invocations yield identical point and barrier sequences —
and the generated centerline has the fixed 200 points. -/
theorem C6_track_determinism :
    (∀ t₁ t₂ : Track3D, t₁ = Track3D.generate_track → t₂ = Track3D.generate_track →
      t₁.points = t₂.points ∧ t₁.left_barriers = t₂.left_barriers ∧
        t₁.right_barriers = t₂.right_barriers) ∧
    Track3D.generate_track.points.length = 200 := by
  constructor
  · rintro t₁ t₂ rfl rfl
    exact ⟨rfl, rfl, rfl⟩
  · simp [Track3D.generate_track, gen_points]

/-- Witness for `C6_track_determinism`: two completed invocations agree. -/
theorem C6_track_determinism_witness :
    Track3D.generate_track.points = Track3D.generate_track.points ∧
    Track3D.generate_track.left_barriers = Track3D.generate_track.left_barriers ∧
    Track3D.generate_track.right_barriers = Track3D.generate_track.right_barriers :=
  C6_track_determinism.1 Track3D.generate_track Track3D.generate_track rfl rfl

end N5

namespace N5

/-! ## Claim C7 — game-mode state machine -/

/-- C7 (amended): SPACE on the menu enters racing and performs the full
session reset (`setup_game`) as part of that transition; during racing
the mode becomes `finish` exactly when the updated player has finished;
SPACE on the finish screen returns to the menu changing nothing but the
mode string — the session reset is *not* part of that transition. -/
theorem C7_state_machine (g : Game3D) (keys : Keys) (dt : ℝ) :
    (g.state = "menu" →
      g.handle_event (.keydown .space) = Game3D.setup_game { g with state := "racing" }) ∧
    (g.state = "racing" →
      ((g.update keys dt).state = "finish" ↔
        (g.player.update g.track.points (some keys) dt).finished = true)) ∧
    (g.state = "finish" →
      g.handle_event (.keydown .space) = { g with state := "menu" }) := by
  refine ⟨fun h => ?_, fun h => ?_, fun h => ?_⟩
  · simp only [Game3D.handle_event]
    rw [if_pos (by exact ⟨h, trivial⟩)]
  · simp only [Game3D.update, if_pos h]
    by_cases hf : (g.player.update g.track.points (some keys) dt).finished = true
    · rw [if_pos hf]
      simpa using hf
    · rw [if_neg hf]
      simp only [hf, iff_false]
      rw [h]
      decide
  · simp only [Game3D.handle_event]
    rw [if_neg (by
        rintro ⟨hm, -⟩
        rw [h] at hm
        exact absurd hm (by decide)),
      if_pos (by exact ⟨h, trivial⟩)]

/-- Counterexample to C7 as stated: on the concrete finish-screen game
`finish_game`, SPACE transitions to the menu but performs no session
reset — the player still carries 3 laps and the finished flag after the
transition. -/
theorem C7_counterexample :
    finish_game.state = "finish" ∧
    (finish_game.handle_event (.keydown .space)).state = "menu" ∧
    (finish_game.handle_event (.keydown .space)).player.lap_count = 3 ∧
    (finish_game.handle_event (.keydown .space)).player.finished = true :=
  ⟨rfl, rfl, rfl, rfl⟩

/-- Witness for `C7_state_machine` on concrete games in each mode. -/
theorem C7_state_machine_witness :
    (menu_game.handle_event (.keydown .space) =
      Game3D.setup_game { menu_game with state := "racing" }) ∧
    ((racing_game.update keys_none 1).state = "finish" ↔
      (racing_game.player.update racing_game.track.points (some keys_none) 1).finished = true) ∧
    (finish_game.handle_event (.keydown .space) = { finish_game with state := "menu" }) :=
  ⟨(C7_state_machine menu_game keys_none 1).1 rfl,
    (C7_state_machine racing_game keys_none 1).2.1 rfl,
    (C7_state_machine finish_game keys_none 1).2.2 rfl⟩

/-! ## Claim C5 — steering turn rate vs. speed -/

set_option maxHeartbeats 1000000 in
/-- When a left-steer key is held and no right-steer key is,
`update_player_input` changes the heading by exactly `-turn_amount`
(before the `% 360` normalisation). -/
theorem update_player_input_yaw_left (c : Car3D) (keys : Keys) (dt : ℝ)
    (ha : (keys.k_a || keys.k_left) = true)
    (hd : (keys.k_d || keys.k_right) = false) :
    (c.update_player_input keys dt).angle_yaw =
      pymod (c.angle_yaw - c.turn_amount) 360 := by
  simp only [Car3D.update_player_input, ha, hd]
  split_ifs <;> first | rfl | simp_all

/-- C5 (amended): steering changes the heading by
`5.0 * (speed / max(max_speed, 1))`, i.e. proportionally to the
current-speed/max-speed ratio — so the turn rate scales *up*, strictly
monotonically, as speed increases (not down). -/
theorem C5_steering_scales_up (c : Car3D) (keys : Keys) (dt : ℝ) :
    ((keys.k_a || keys.k_left) = true → (keys.k_d || keys.k_right) = false →
      (c.update_player_input keys dt).angle_yaw =
        pymod (c.angle_yaw - c.turn_amount) 360) ∧
    (∀ c₁ c₂ : Car3D, c₁.car_class = c₂.car_class → c₁.speed < c₂.speed →
      c₁.turn_amount < c₂.turn_amount) := by
  refine ⟨update_player_input_yaw_left c keys dt, fun c₁ c₂ hclass hlt => ?_⟩
  have hM : (0 : ℝ) < max c₂.car_class.max_speed 1 :=
    lt_of_lt_of_le one_pos (le_max_right _ _)
  rw [Car3D.turn_amount, Car3D.turn_amount, Car3D.max_speed, Car3D.max_speed, hclass]
  exact mul_lt_mul_of_pos_left ((div_lt_div_iff_of_pos_right hM).mpr hlt) (by norm_num)

/-- Turn amount of the speed-120 `SPORTS` car. -/
theorem sports_car_120_turn_amount : sports_car_120.turn_amount = 2.5 := by
  rw [Car3D.turn_amount]
  rw [show sports_car_120.max_speed = 240 from rfl, show sports_car_120.speed = 120 from rfl]
  rw [max_eq_left (by norm_num : (1 : ℝ) ≤ 240)]
  norm_num

/-- Turn amount of the speed-240 `SPORTS` car. -/
theorem sports_car_240_turn_amount : sports_car_240.turn_amount = 5 := by
  rw [Car3D.turn_amount]
  rw [show sports_car_240.max_speed = 240 from rfl, show sports_car_240.speed = 240 from rfl]
  rw [max_eq_left (by norm_num : (1 : ℝ) ≤ 240)]
  norm_num

/-- Counterexample to C5 as stated: two cars identical except for speed
(120 vs. 240); with the left-steer key held, the faster car's heading
changes by 5 degrees and the slower car's by 2.5 — the higher speed
produces the *larger* change, and 5 is not smaller than 2.5. -/
theorem C5_counterexample :
    sports_car_120.speed < sports_car_240.speed ∧
    (sports_car_120.update_player_input keys_a 0.016).angle_yaw = 360 - 2.5 ∧
    (sports_car_240.update_player_input keys_a 0.016).angle_yaw = 360 - 5 ∧
    ¬((5 : ℝ) < 2.5) := by
  have hfloor25 : ⌊((0 : ℝ) - 2.5) / 360⌋ = -1 := by
    rw [Int.floor_eq_iff]
    norm_num
  have hfloor5 : ⌊((0 : ℝ) - 5) / 360⌋ = -1 := by
    rw [Int.floor_eq_iff]
    norm_num
  refine ⟨by norm_num [show sports_car_120.speed = 120 from rfl,
      show sports_car_240.speed = 240 from rfl], ?_, ?_, by norm_num⟩
  · rw [update_player_input_yaw_left sports_car_120 keys_a 0.016 rfl rfl]
    rw [show sports_car_120.angle_yaw = 0 from rfl, sports_car_120_turn_amount]
    rw [pymod, hfloor25]
    norm_num
  · rw [update_player_input_yaw_left sports_car_240 keys_a 0.016 rfl rfl]
    rw [show sports_car_240.angle_yaw = 0 from rfl, sports_car_240_turn_amount]
    rw [pymod, hfloor5]
    norm_num

/-- Witness for `C5_steering_scales_up` on the concrete `SPORTS` cars. -/
theorem C5_steering_scales_up_witness :
    ((sports_car_120.update_player_input keys_a 0.016).angle_yaw =
      pymod (sports_car_120.angle_yaw - sports_car_120.turn_amount) 360) ∧
    sports_car_120.turn_amount < sports_car_240.turn_amount :=
  ⟨(C5_steering_scales_up sports_car_120 keys_a 0.016).1 rfl rfl,
    (C5_steering_scales_up sports_car_120 keys_a 0.016).2 sports_car_120 sports_car_240 rfl
      (by norm_num [show sports_car_120.speed = 120 from rfl,
        show sports_car_240.speed = 240 from rfl])⟩

end N5

namespace N5

/-! ## Claim C2 — lap-counting logic of `check_checkpoint` -/

/-- `distance_to` is a square root, hence nonnegative. -/
theorem distance_to_nonneg (v w : Vector3) : 0 ≤ v.distance_to w :=
  Real.sqrt_nonneg _

/-- The distance from a point to itself is zero. -/
theorem distance_to_self (v : Vector3) : v.distance_to v = 0 := by
  rw [Vector3.distance_to]
  simp

/-- Once the running best distance is already `≤ 0`, the scan never
switches away from the current best index. -/
theorem closest_idx_go_of_nonpos (pos : Vector3) (l : List Vector3) (i : ℕ) (d : ℝ)
    (b : ℕ) (hd : d ≤ 0) : closest_idx_go pos l i d b = b := by
  induction l generalizing i with
  | nil => rfl
  | cons p rest ih =>
    rw [closest_idx_go, if_neg (not_lt.mpr (hd.trans (distance_to_nonneg pos p)))]
    exact ih (i + 1)

/-- A car standing exactly on the head point of the track always gets
closest index `0`. -/
theorem closest_idx_cons_self (pos : Vector3) (rest : List Vector3) :
    closest_idx pos (pos :: rest) = 0 := by
  rw [closest_idx]
  exact closest_idx_go_of_nonpos pos rest 1 _ 0 (le_of_eq (distance_to_self pos))

/-- The length of the concrete `line_track`. -/
theorem line_track_length : line_track.length = 200 := by
  rw [line_track, List.length_map, List.length_range]

/-- C2 (amended): on a nonempty track, one `check_checkpoint` call
increments `lap_count` exactly when the closest-point index is below
both the furthest reached index (`last_checkpoint`) and the threshold
`20` — the code does **not** require the previous index to be near the
final track index. -/
theorem C2_lap_increment_iff (c : Car3D) (tp : List Vector3) (h : tp ≠ []) :
    (c.check_checkpoint tp).lap_count =
      (if closest_idx c.pos tp < c.last_checkpoint ∧ closest_idx c.pos tp < 20
        then c.lap_count + 1 else c.lap_count) := by
  rw [Car3D.check_checkpoint, if_neg (by simpa using h)]
  by_cases h1 : closest_idx c.pos tp > c.last_checkpoint
  · rw [if_pos h1, if_neg (by omega)]
  · rw [if_neg h1]
    by_cases h2 : closest_idx c.pos tp < c.last_checkpoint ∧ closest_idx c.pos tp < 20
    · rw [if_pos h2, if_pos h2]
      dsimp only
      split_ifs <;> rfl
    · rw [if_neg h2, if_neg h2]

/-- Witness for `C2_lap_increment_iff`: a car on a one-point track with
`last_checkpoint = 0` counts no lap. -/
theorem C2_lap_increment_iff_witness :
    (parked_car.check_checkpoint [parked_car.pos]).lap_count = parked_car.lap_count := by
  rw [C2_lap_increment_iff parked_car [parked_car.pos] (List.cons_ne_nil _ _),
    closest_idx_cons_self, show parked_car.last_checkpoint = 0 from rfl]
  norm_num

/-- Counterexample to C2 as stated: on the concrete 200-point
`line_track`, a car whose furthest reached index is `21` — nowhere near
the final index `199` — jumps to closest index `0` in one frame and the
code *does* increment `lap_count`. -/
theorem C2_counterexample :
    midway_car.last_checkpoint = 21 ∧
    line_track.length = 200 ∧
    (midway_car.check_checkpoint line_track).lap_count = midway_car.lap_count + 1 := by
  have htrack : line_track =
      midway_car.pos :: (List.range 199).map (fun i : ℕ => (⟨((i + 1 : ℕ) : ℝ), 0, 0⟩ : Vector3)) := by
    rw [line_track, show (200 : ℕ) = 199 + 1 from rfl, List.range_succ_eq_map,
      List.map_cons, List.map_map]
    congr 1
    · rw [show midway_car.pos = (⟨0, 0, 0⟩ : Vector3) from rfl]
      norm_num
  have hpos : closest_idx midway_car.pos line_track = 0 := by
    rw [htrack]
    exact closest_idx_cons_self _ _
  refine ⟨rfl, line_track_length, ?_⟩
  simp only [Car3D.check_checkpoint, hpos,
    show midway_car.last_checkpoint = 21 from rfl,
    show midway_car.lap_count = 0 from rfl]
  rw [if_neg (by rw [line_track_length]; norm_num)]
  norm_num

end N5

namespace N5

theorem sqrt_add_sq_triangle (a b c d : ℝ) :
    Real.sqrt ((a + c) ^ 2 + (b + d) ^ 2) ≤
      Real.sqrt (a ^ 2 + b ^ 2) + Real.sqrt (c ^ 2 + d ^ 2) := by
  have h := Complex.abs.add_le ⟨a, b⟩ ⟨c, d⟩
  simp only [Complex.abs_apply, Complex.normSq_apply, Complex.add_re, Complex.add_im] at h
  calc Real.sqrt ((a + c) ^ 2 + (b + d) ^ 2)
      = Real.sqrt ((a + c) * (a + c) + (b + d) * (b + d)) := by ring_nf
    _ ≤ Real.sqrt (a * a + b * b) + Real.sqrt (c * c + d * d) := h
    _ = Real.sqrt (a ^ 2 + b ^ 2) + Real.sqrt (c ^ 2 + d ^ 2) := by ring_nf

theorem sqrt_scale (vx vz t : ℝ) (ht : 0 ≤ t) :
    Real.sqrt ((vx * t) ^ 2 + (vz * t) ^ 2) = Real.sqrt (vx ^ 2 + vz ^ 2) * t := by
  have h : (vx * t) ^ 2 + (vz * t) ^ 2 = (vx ^ 2 + vz ^ 2) * t ^ 2 := by ring
  rw [h, Real.sqrt_mul (by positivity), Real.sqrt_sq ht]

theorem accel_bound (vx vz f r a c₀ : ℝ) (hfr : f ^ 2 + r ^ 2 = 1)
    (ha : 0 ≤ a) (hc : 0 ≤ c₀) :
    Real.sqrt ((vx + f * a * c₀) ^ 2 + (vz + r * a * c₀) ^ 2) ≤
      Real.sqrt (vx ^ 2 + vz ^ 2) + a * c₀ := by
  have key : Real.sqrt ((f * a * c₀) ^ 2 + (r * a * c₀) ^ 2) = a * c₀ := by
    have h : (f * a * c₀) ^ 2 + (r * a * c₀) ^ 2 = (f ^ 2 + r ^ 2) * (a * c₀) ^ 2 := by ring
    rw [h, hfr, one_mul, Real.sqrt_sq (by positivity)]
  calc Real.sqrt ((vx + f * a * c₀) ^ 2 + (vz + r * a * c₀) ^ 2)
      ≤ Real.sqrt (vx ^ 2 + vz ^ 2) + Real.sqrt ((f * a * c₀) ^ 2 + (r * a * c₀) ^ 2) :=
        sqrt_add_sq_triangle vx vz (f * a * c₀) (r * a * c₀)
    _ = Real.sqrt (vx ^ 2 + vz ^ 2) + a * c₀ := by rw [key]

theorem decel_bound (vx vz f r a c₀ : ℝ) (hfr : f ^ 2 + r ^ 2 = 1)
    (ha : 0 ≤ a) (hc : 0 ≤ c₀) :
    Real.sqrt ((vx - f * a * c₀) ^ 2 + (vz - r * a * c₀) ^ 2) ≤
      Real.sqrt (vx ^ 2 + vz ^ 2) + a * c₀ := by
  have h := accel_bound vx vz (-f) (-r) a c₀ (by ring_nf; ring_nf at hfr; exact hfr) ha hc
  calc Real.sqrt ((vx - f * a * c₀) ^ 2 + (vz - r * a * c₀) ^ 2)
      = Real.sqrt ((vx + -f * a * c₀) ^ 2 + (vz + -r * a * c₀) ^ 2) := by ring_nf
    _ ≤ _ := h

end N5

namespace N5

theorem max_speed_ge_200 (c : Car3D) : 200 ≤ c.max_speed := by
  rw [Car3D.max_speed]
  cases c.car_class <;> norm_num [CarClass.max_speed]

theorem acceleration_nonneg (c : Car3D) : 0 ≤ c.acceleration := by
  rw [Car3D.acceleration]
  cases c.car_class <;> norm_num [CarClass.acceleration]

set_option maxHeartbeats 1000000 in
theorem update_player_input_velocity (c : Car3D) (k : Keys) (dt : ℝ) :
    (c.update_player_input k dt).velocity =
      (let f := Real.cos (math_radians c.angle_yaw)
       let r := Real.sin (math_radians c.angle_yaw)
       let v1 : Vector3 :=
         if k.k_w || k.k_up then
           ⟨c.velocity.x + f * c.acceleration * 50, c.velocity.y,
             c.velocity.z + r * c.acceleration * 50⟩
         else c.velocity
       let v2 : Vector3 :=
         if k.k_s || k.k_down then
           if k.k_lshift || k.k_rshift then
             ⟨v1.x - f * c.acceleration * 30, v1.y, v1.z - r * c.acceleration * 30⟩
           else ⟨v1.x * 0.80, v1.y, v1.z * 0.80⟩
         else v1
       if c.speed > c.max_speed then
         ⟨v2.x * (c.max_speed / max c.speed 0.1), v2.y,
           v2.z * (c.max_speed / max c.speed 0.1)⟩
       else v2) := by
  simp only [Car3D.update_player_input]
  split_ifs <;>
    first
      | rfl
      | (dsimp only [Car3D.max_speed, Car3D.acceleration] at *; simp_all)

end N5

namespace N5

theorem clamped_le (wx wz sp M A : ℝ) (hA : 0 ≤ A) (hM01 : (0.1 : ℝ) < M)
    (hw : Real.sqrt (wx ^ 2 + wz ^ 2) ≤ sp + A) (hsp : M < sp) :
    Real.sqrt ((wx * (M / max sp 0.1)) ^ 2 + (wz * (M / max sp 0.1)) ^ 2) ≤ M + A := by
  have hsppos : (0 : ℝ) < sp := lt_trans (lt_trans (by norm_num) hM01) hsp
  have hMpos : (0 : ℝ) < M := lt_trans (by norm_num) hM01
  have hmax : max sp 0.1 = sp := max_eq_left (le_of_lt (lt_trans hM01 hsp))
  rw [hmax, sqrt_scale _ _ _ (by positivity)]
  have h1 : Real.sqrt (wx ^ 2 + wz ^ 2) * (M / sp) ≤ (sp + A) * (M / sp) :=
    mul_le_mul_of_nonneg_right hw (by positivity)
  have h2 : (sp + A) * (M / sp) ≤ M + A := by
    rw [show (sp + A) * (M / sp) = M + A * (M / sp) by field_simp; ring]
    have hdiv : M / sp ≤ 1 := (div_le_one hsppos).mpr (le_of_lt hsp)
    nlinarith
  exact h1.trans h2

set_option maxHeartbeats 1000000 in
theorem update_player_input_speed_bound (c : Car3D) (k : Keys) (dt : ℝ)
    (hs : c.speed = Real.sqrt (c.velocity.x ^ 2 + c.velocity.z ^ 2)) :
    Real.sqrt ((c.update_player_input k dt).velocity.x ^ 2 +
        (c.update_player_input k dt).velocity.z ^ 2) ≤
      c.max_speed + c.acceleration * 50 := by
  rw [update_player_input_velocity]
  have ha := acceleration_nonneg c
  have hM := max_speed_ge_200 c
  have hfr : Real.cos (math_radians c.angle_yaw) ^ 2 +
      Real.sin (math_radians c.angle_yaw) ^ 2 = 1 := Real.cos_sq_add_sin_sq _
  have hS0 : (0 : ℝ) ≤ Real.sqrt (c.velocity.x ^ 2 + c.velocity.z ^ 2) := Real.sqrt_nonneg _
  have hA50 : (0 : ℝ) ≤ c.acceleration * 50 := mul_nonneg ha (by norm_num)
  have hfinish : ∀ X Z : ℝ,
      Real.sqrt (X ^ 2 + Z ^ 2) ≤
        Real.sqrt (c.velocity.x ^ 2 + c.velocity.z ^ 2) + c.acceleration * 50 →
      Real.sqrt ((if c.speed > c.max_speed then X * (c.max_speed / max c.speed 0.1) else X) ^ 2 +
          (if c.speed > c.max_speed then Z * (c.max_speed / max c.speed 0.1) else Z) ^ 2) ≤
        c.max_speed + c.acceleration * 50 := by
    intro X Z hXZ
    rw [← hs] at hXZ
    by_cases hcl : c.speed > c.max_speed
    · rw [if_pos hcl, if_pos hcl]
      exact clamped_le X Z c.speed c.max_speed (c.acceleration * 50) hA50
        (lt_of_lt_of_le (by norm_num) hM) hXZ hcl
    · rw [if_neg hcl, if_neg hcl]
      push_neg at hcl
      exact hXZ.trans (by linarith)
  cases hW : (k.k_w || k.k_up) <;> cases hS : (k.k_s || k.k_down) <;>
    cases hR : (k.k_lshift || k.k_rshift) <;>
    simp only [hW, hS, hR, Bool.false_eq_true, Bool.true_eq_false, eq_self_iff_true,
      if_true, if_false, apply_ite Vector3.x, apply_ite Vector3.z]
  -- eight branches: (W, S, Rev) = (f,f,f), (f,f,t), (f,t,f), (f,t,t), (t,f,f), (t,f,t), (t,t,f), (t,t,t)
  · exact hfinish _ _ (le_add_of_nonneg_right hA50)
  · exact hfinish _ _ (le_add_of_nonneg_right hA50)
  · exact hfinish _ _ (by
      rw [sqrt_scale _ _ _ (by norm_num : (0 : ℝ) ≤ 0.80)]
      linarith)
  · exact hfinish _ _
      ((decel_bound c.velocity.x c.velocity.z _ _ c.acceleration 30 hfr ha
        (by norm_num)).trans (by linarith))
  · exact hfinish _ _
      (accel_bound c.velocity.x c.velocity.z _ _ c.acceleration 50 hfr ha (by norm_num))
  · exact hfinish _ _
      (accel_bound c.velocity.x c.velocity.z _ _ c.acceleration 50 hfr ha (by norm_num))
  · exact hfinish _ _ (by
      rw [sqrt_scale _ _ _ (by norm_num : (0 : ℝ) ≤ 0.80)]
      have h1 := accel_bound c.velocity.x c.velocity.z
        (Real.cos (math_radians c.angle_yaw)) (Real.sin (math_radians c.angle_yaw))
        c.acceleration 50 hfr ha (by norm_num)
      have h0 := Real.sqrt_nonneg
        ((c.velocity.x + Real.cos (math_radians c.angle_yaw) * c.acceleration * 50) ^ 2 +
          (c.velocity.z + Real.sin (math_radians c.angle_yaw) * c.acceleration * 50) ^ 2)
      linarith)
  · exact hfinish _ _ (by
      rw [show c.velocity.x + Real.cos (math_radians c.angle_yaw) * c.acceleration * 50 -
            Real.cos (math_radians c.angle_yaw) * c.acceleration * 30 =
          c.velocity.x + Real.cos (math_radians c.angle_yaw) * c.acceleration * 20 by ring,
        show c.velocity.z + Real.sin (math_radians c.angle_yaw) * c.acceleration * 50 -
            Real.sin (math_radians c.angle_yaw) * c.acceleration * 30 =
          c.velocity.z + Real.sin (math_radians c.angle_yaw) * c.acceleration * 20 by ring]
      exact (accel_bound c.velocity.x c.velocity.z _ _ c.acceleration 20 hfr ha
        (by norm_num)).trans (by linarith))

end N5

namespace N5

set_option maxHeartbeats 1000000 in
theorem update_ai_velocity_cases (c : Car3D) (tp : List Vector3) (dt : ℝ) :
    (c.update_ai tp dt).velocity = c.velocity ∨
    ((c.update_ai tp dt).velocity =
        ⟨c.velocity.x * (c.max_speed / max c.speed 0.1), c.velocity.y,
          c.velocity.z * (c.max_speed / max c.speed 0.1)⟩ ∧
      c.speed > c.max_speed) ∨
    (∃ θ : ℝ,
      ((c.update_ai tp dt).velocity =
          ⟨c.velocity.x + Real.cos θ * c.acceleration * 30, c.velocity.y,
            c.velocity.z + Real.sin θ * c.acceleration * 30⟩ ∧
        c.speed < c.max_speed * 0.85) ∨
      ((c.update_ai tp dt).velocity =
          ⟨(c.velocity.x + Real.cos θ * c.acceleration * 30) * (c.max_speed / max c.speed 0.1),
            c.velocity.y,
            (c.velocity.z + Real.sin θ * c.acceleration * 30) * (c.max_speed / max c.speed 0.1)⟩ ∧
        c.speed < c.max_speed * 0.85 ∧ c.speed > c.max_speed)) := by
  rw [Car3D.update_ai]
  by_cases h1 : tp.length < 2
  · rw [if_pos h1]
    exact Or.inl rfl
  · rw [if_neg h1]
    dsimp only
    split_ifs with h2 h3 h4
    · exact Or.inr (Or.inr ⟨_, Or.inr ⟨rfl, h2, h3⟩⟩)
    · exact Or.inr (Or.inr ⟨_, Or.inl ⟨rfl, h2⟩⟩)
    · exact Or.inr (Or.inl ⟨rfl, h4⟩)
    · exact Or.inl rfl

theorem update_ai_speed_bound (c : Car3D) (tp : List Vector3) (dt : ℝ)
    (hs : c.speed = Real.sqrt (c.velocity.x ^ 2 + c.velocity.z ^ 2))
    (hb : c.speed ≤ 0.97 * (c.max_speed + c.acceleration * 50)) :
    Real.sqrt ((c.update_ai tp dt).velocity.x ^ 2 + (c.update_ai tp dt).velocity.z ^ 2) ≤
      c.max_speed + c.acceleration * 50 := by
  have ha := acceleration_nonneg c
  have hM := max_speed_ge_200 c
  have hA50 : (0 : ℝ) ≤ c.acceleration * 50 := mul_nonneg ha (by norm_num)
  rcases update_ai_velocity_cases c tp dt with h | ⟨h, hcl⟩ | ⟨θ, ⟨h, hac⟩ | ⟨h, hac, hcl⟩⟩
  · rw [h, ← hs]
    linarith
  · rw [h]
    dsimp only
    exact clamped_le c.velocity.x c.velocity.z c.speed c.max_speed (c.acceleration * 50) hA50
      (lt_of_lt_of_le (by norm_num) hM)
      (by rw [← hs]; exact le_add_of_nonneg_right hA50) hcl
  · rw [h]
    dsimp only
    have hfrθ : Real.cos θ ^ 2 + Real.sin θ ^ 2 = 1 := Real.cos_sq_add_sin_sq θ
    have h1 := accel_bound c.velocity.x c.velocity.z (Real.cos θ) (Real.sin θ)
      c.acceleration 30 hfrθ ha (by norm_num)
    rw [← hs] at h1
    linarith
  · linarith

theorem update_speed_eq (c : Car3D) (tp : List Vector3) (keys : Option Keys) (dt : ℝ)
    (hfin : c.finished = false) :
    (c.update tp keys dt).speed =
      Real.sqrt (((c.input_stage tp keys dt).velocity.x * 0.97) ^ 2 +
        ((c.input_stage tp keys dt).velocity.z * 0.97) ^ 2) := by
  rw [update_eq_of_not_finished c tp keys dt hfin]
  show (Car3D.check_checkpoint _ tp).speed = _
  rw [check_checkpoint_speed, update_track_height_speed]

/-- C1 (amended): the post-friction speed after `update` does *not* stay
below `max_speed` (the cap tests the previous frame's speed before the
new acceleration and friction are applied); the invariant that actually
holds, for player- and AI-controlled cars alike, is
`speed ≤ 0.97 * (max_speed + acceleration * 50)` — preserved by every
`update` call whenever the recorded speed agrees with the velocity. -/
theorem C1_speed_invariant (c : Car3D) (tp : List Vector3) (keys : Option Keys) (dt : ℝ)
    (hs : c.speed = Real.sqrt (c.velocity.x ^ 2 + c.velocity.z ^ 2))
    (hb : c.speed ≤ 0.97 * (c.max_speed + c.acceleration * 50)) :
    (c.update tp keys dt).speed ≤ 0.97 * (c.max_speed + c.acceleration * 50) := by
  cases hfin : c.finished with
  | true =>
    rw [update_eq_of_finished c tp keys dt hfin]
    exact hb
  | false =>
    rw [update_speed_eq c tp keys dt hfin,
      sqrt_scale _ _ _ (by norm_num : (0 : ℝ) ≤ 0.97)]
    have hcore : Real.sqrt ((c.input_stage tp keys dt).velocity.x ^ 2 +
        (c.input_stage tp keys dt).velocity.z ^ 2) ≤ c.max_speed + c.acceleration * 50 := by
      cases keys with
      | none =>
        rw [show c.input_stage tp none dt = c.update_ai tp dt from rfl]
        exact update_ai_speed_bound c tp dt hs hb
      | some k =>
        rw [show c.input_stage tp (some k) dt =
            (if c.is_player = true then c.update_player_input k dt else c.update_ai tp dt)
          from rfl]
        by_cases hp : c.is_player = true
        · rw [if_pos hp]
          exact update_player_input_speed_bound c k dt hs
        · rw [if_neg hp]
          exact update_ai_speed_bound c tp dt hs hb
    calc Real.sqrt ((c.input_stage tp keys dt).velocity.x ^ 2 +
          (c.input_stage tp keys dt).velocity.z ^ 2) * 0.97
        ≤ (c.max_speed + c.acceleration * 50) * 0.97 :=
          mul_le_mul_of_nonneg_right hcore (by norm_num)
      _ = 0.97 * (c.max_speed + c.acceleration * 50) := by ring

end N5

namespace N5

/-- Counterexample to C1 as stated: a `SPORTS` player car at rest that
presses the accelerator for one frame ends the `update` call at speed
`582`, far above its `max_speed = 240` — the cap compared the *previous*
frame's speed (0) against the maximum and never rescaled. -/
theorem C1_counterexample :
    (sports_car.update [] (some keys_w) 0.016).speed = 582 ∧
    sports_car.max_speed = 240 ∧ (240 : ℝ) + 1 < 582 := by
  refine ⟨?_, rfl, by norm_num⟩
  rw [update_speed_eq sports_car [] (some keys_w) 0.016 rfl]
  have hv : (sports_car.input_stage [] (some keys_w) 0.016).velocity = ⟨600, 0, 0⟩ := by
    rw [show sports_car.input_stage [] (some keys_w) 0.016 =
        (if sports_car.is_player = true then sports_car.update_player_input keys_w 0.016
          else sports_car.update_ai [] 0.016) from rfl]
    rw [if_pos (show sports_car.is_player = true from rfl)]
    rw [update_player_input_velocity]
    rw [show sports_car.angle_yaw = 0 from rfl]
    rw [show math_radians 0 = 0 by rw [math_radians]; ring]
    norm_num [keys_w, Real.cos_zero, Real.sin_zero,
      show sports_car.velocity.x = 0 from rfl, show sports_car.velocity.y = 0 from rfl,
      show sports_car.velocity.z = 0 from rfl, show sports_car.acceleration = 12 from rfl,
      show sports_car.speed = 0 from rfl, show sports_car.max_speed = 240 from rfl]
  rw [hv]
  rw [show ((⟨600, 0, 0⟩ : Vector3).x * 0.97) ^ 2 + ((⟨600, 0, 0⟩ : Vector3).z * 0.97) ^ 2 =
      (582 : ℝ) ^ 2 by norm_num]
  rw [Real.sqrt_sq (by norm_num : (0 : ℝ) ≤ 582)]

/-- Witness for `C1_speed_invariant` on the freshly constructed `SPORTS`
car at rest. -/
theorem C1_speed_invariant_witness :
    (sports_car.update [] none 1).speed ≤
      0.97 * (sports_car.max_speed + sports_car.acceleration * 50) :=
  C1_speed_invariant sports_car [] none 1
    (by
      rw [show sports_car.speed = 0 from rfl, show sports_car.velocity.x = 0 from rfl,
        show sports_car.velocity.z = 0 from rfl]
      norm_num)
    (by
      rw [show sports_car.speed = 0 from rfl, show sports_car.max_speed = 240 from rfl,
        show sports_car.acceleration = 12 from rfl]
      norm_num)

end N5
